import Mathlib

/-!
Verification development for the nazra multi-camera weapon-detection backend.

Shallow embedding of the incident-aggregation engine
(`backend/app/routers/incidents.py`, `backend/app/routers/stream.py`,
`backend/app/models/incident.py`), the notification throttle
(`create_simulation_alert` in `stream.py`), the motion gate
(`detect_motion` in `stream.py`), the camera reader loop
(`backend/app/services/multi_camera.py`) and the similarity frame skipper
(`backend/app/services/detection_pipeline.py`).

Modelling conventions:
* `datetime.utcnow()` / `time.time()` timestamps are rationals (seconds).
* SQLAlchemy tables are Lean lists; a query-then-mutate on the matched row
  becomes `updateFirst`; a bulk UPDATE becomes `List.map`.
* Python per-camera dicts (`_simulation_alert_count`, `_motion_cache`,
  `_last_hash`, ...) are modelled by the state of the one camera under
  consideration, since every read/write of those dicts is keyed by the
  current `camera_id`.
* Confidences are rationals; image frames are lists of 8-bit intensities.
-/

/-- The states of `IncidentStatus` in `app/models/incident.py`
(ACTIVE, CLOSED, REVIEWED, CONFIRMED, FALSE_ALARM). -/
inductive IncidentState
  | active
  | closed
  | reviewed
  | confirmed
  | falseAlarm
deriving DecidableEq, Repr

/-- The states of `AlertStatus` in `app/models/alert.py`
(NEW, UNDER_REVIEW, CONFIRMED, FALSE_ALARM). -/
inductive AlertState
  | new
  | underReview
  | confirmed
  | falseAlarm
deriving DecidableEq, Repr

/-- The `Incident` row of `app/models/incident.py` (the columns the engine
reads or writes; `thumbnail`, `extra_data`, `created_at`, `updated_at` are
never consulted by the engine and are omitted). -/
structure Incident where
  id : Nat
  camera_id : String
  camera_name : String
  location : String
  primary_weapon_type : String
  severity : String
  max_confidence : ℚ := 0
  avg_confidence : ℚ := 0
  alert_count : Nat := 0
  detection_count : Nat := 0
  best_snapshot : Option String := none
  started_at : ℚ
  last_detection_at : ℚ
  ended_at : Option ℚ := none
  status : IncidentState
  reviewed_by : Option String := none
  reviewed_at : Option ℚ := none
  notes : Option String := none
deriving DecidableEq, Repr

/-- The `Alert` row of `app/models/alert.py` (the columns touched by the
review cascade in `review_incident`). -/
structure Alert where
  id : String
  incident_id : Nat
  camera_id : String
  status : AlertState
  reviewed_by : Option String := none
  reviewed_at : Option ℚ := none
deriving DecidableEq, Repr

/-- `INCIDENT_TIMEOUT_MINUTES = 5` from `incidents.py` / `stream.py`,
converted to seconds (timestamps are rational seconds). -/
def INCIDENT_TIMEOUT : ℚ := 5 * 60

/-- The match predicate of the `select(Incident).where(...)` query in
`get_or_create_incident` (`stream.py` lines 126-133, `incidents.py` lines
525-534): same camera, same weapon type, status ACTIVE, and
`last_detection_at >= utcnow() - timedelta(minutes=5)`. -/
def incidentMatches (cameraId weaponType : String) (now : ℚ) (inc : Incident) : Bool :=
  decide (inc.camera_id = cameraId ∧ inc.primary_weapon_type = weaponType ∧
    inc.status = IncidentState.active ∧ now - INCIDENT_TIMEOUT ≤ inc.last_detection_at)

/-- A fresh `Incident(...)` as constructed in `get_or_create_incident`:
only camera/weapon/severity fields are passed, the column defaults give
counters 0, confidences 0, `started_at = last_detection_at = utcnow()`,
`ended_at = None`, and the status is set to ACTIVE. -/
def newIncident (newId : Nat) (cameraId cameraName location weaponType severity : String)
    (now : ℚ) : Incident :=
  { id := newId, camera_id := cameraId, camera_name := cameraName, location := location,
    primary_weapon_type := weaponType, severity := severity,
    started_at := now, last_detection_at := now, status := IncidentState.active }

/-- `get_or_create_incident` (`stream.py` lines 107-151): return the row
found by the match query together with `is_new = False`, or a fresh ACTIVE
incident with `is_new = True`. -/
def get_or_create_incident (db : List Incident) (newId : Nat)
    (cameraId cameraName location weaponType severity : String) (now : ℚ) :
    Incident × Bool :=
  match db.find? (incidentMatches cameraId weaponType now) with
  | some inc => (inc, false)
  | none => (newIncident newId cameraId cameraName location weaponType severity now, true)

/-- The incident-statistics update block of `create_simulation_alert`
(`stream.py` lines 255-272): bump `alert_count` and `detection_count`, set
`last_detection_at = utcnow()`, raise `max_confidence` (replacing
`best_snapshot`) when the new confidence is strictly larger, then update
`avg_confidence` (set to `confidence` when the running average is 0,
otherwise the incremental mean over the post-increment count). -/
def applyDetection (confidence : ℚ) (snapshot : String) (now : ℚ) (inc : Incident) : Incident :=
  let inc1 : Incident :=
    { inc with alert_count := inc.alert_count + 1,
               detection_count := inc.detection_count + 1,
               last_detection_at := now }
  let inc2 : Incident :=
    if inc1.max_confidence < confidence then
      { inc1 with max_confidence := confidence, best_snapshot := some snapshot }
    else inc1
  if inc2.avg_confidence = 0 then { inc2 with avg_confidence := confidence }
  else
    { inc2 with avg_confidence :=
        (inc2.avg_confidence * ((inc2.detection_count : ℚ) - 1) + confidence) /
          (inc2.detection_count : ℚ) }

/-- `Incident.add_detection` (`app/models/incident.py` lines 110-123): same
statistics update, without the alert counter and snapshot bookkeeping. -/
def Incident.add_detection (inc : Incident) (confidence : ℚ) (now : ℚ) : Incident :=
  let inc1 : Incident :=
    { inc with detection_count := inc.detection_count + 1, last_detection_at := now }
  let inc2 : Incident :=
    if inc1.max_confidence < confidence then { inc1 with max_confidence := confidence }
    else inc1
  if inc2.avg_confidence = 0 then { inc2 with avg_confidence := confidence }
  else
    { inc2 with avg_confidence :=
        (inc2.avg_confidence * ((inc2.detection_count : ℚ) - 1) + confidence) /
          (inc2.detection_count : ℚ) }

/-- Mutate the first list element satisfying `p` with `f`, leaving the rest
unchanged: the effect of committing an ORM mutation of the row returned by
`scalar_one_or_none`. -/
def updateFirst {α : Type} (p : α → Bool) (f : α → α) : List α → List α
  | [] => []
  | a :: rest => if p a then f a :: rest else a :: updateFirst p f rest

/-- One detection event routed through `get_or_create_incident` followed by
the statistics update of `create_simulation_alert`: the matched ACTIVE
incident is updated in place, or a fresh incident is created, seeded with
this detection, and inserted. -/
def processDetection (db : List Incident) (newId : Nat)
    (cameraId cameraName location weaponType severity : String)
    (confidence : ℚ) (snapshot : String) (now : ℚ) : List Incident :=
  if db.any (incidentMatches cameraId weaponType now) then
    updateFirst (incidentMatches cameraId weaponType now)
      (applyDetection confidence snapshot now) db
  else
    db ++ [applyDetection confidence snapshot now
      (newIncident newId cameraId cameraName location weaponType severity now)]

/-- The selection predicate of `_auto_close_stale_incidents`
(`incidents.py` lines 485-493): status ACTIVE and
`last_detection_at < utcnow() - timedelta(minutes=5)`. -/
def staleActive (now : ℚ) (inc : Incident) : Bool :=
  decide (inc.status = IncidentState.active ∧ inc.last_detection_at < now - INCIDENT_TIMEOUT)

/-- The per-row mutation of `_auto_close_stale_incidents`: a stale ACTIVE
incident becomes CLOSED with `ended_at = utcnow()`; other rows are left
untouched. -/
def closeStale (now : ℚ) (inc : Incident) : Incident :=
  if staleActive now inc then
    { inc with status := IncidentState.closed, ended_at := some now }
  else inc

/-- `_auto_close_stale_incidents` (`incidents.py` lines 477-504): close
every stale ACTIVE incident in the table. -/
def auto_close_stale_incidents (db : List Incident) (now : ℚ) : List Incident :=
  db.map (closeStale now)

/-- `close_incident` (`incidents.py` lines 401-437): set the incident with
the given id to CLOSED with `ended_at = utcnow()` (a missing id yields a
404 and leaves the table unchanged). -/
def close_incident (db : List Incident) (incId : Nat) (now : ℚ) : List Incident :=
  updateFirst (fun inc => decide (inc.id = incId))
    (fun inc => { inc with status := IncidentState.closed, ended_at := some now }) db

/-- The three review verdicts the `IncidentReview` request schema admits
(`app/schemas/incident.py`: the status field is restricted to the literals
for REVIEWED, CONFIRMED and FALSE_ALARM). -/
inductive ReviewVerdict
  | reviewed
  | confirmed
  | falseAlarm
deriving DecidableEq, Repr

/-- The incident status written by `review_incident` for each verdict. -/
def ReviewVerdict.toIncidentState : ReviewVerdict → IncidentState
  | .reviewed => IncidentState.reviewed
  | .confirmed => IncidentState.confirmed
  | .falseAlarm => IncidentState.falseAlarm

/-- The `alert_status_map` dictionary of `review_incident` (`incidents.py`
lines 367-371): CONFIRMED to CONFIRMED, FALSE_ALARM to FALSE_ALARM,
REVIEWED to UNDER_REVIEW. -/
def alert_status_map : ReviewVerdict → AlertState
  | .confirmed => AlertState.confirmed
  | .falseAlarm => AlertState.falseAlarm
  | .reviewed => AlertState.underReview

/-- The per-incident mutation of `review_incident` (`incidents.py` lines
353-364): store the verdict as the status, set `reviewed_by` and
`reviewed_at`, copy the notes when provided, and set `ended_at` when it is
still unset. -/
def applyReview (verdict : ReviewVerdict) (reviewedBy : String) (notes : Option String)
    (now : ℚ) (inc : Incident) : Incident :=
  let inc1 : Incident :=
    { inc with status := verdict.toIncidentState,
               reviewed_by := some reviewedBy, reviewed_at := some now }
  let inc2 : Incident :=
    match notes with
    | some n => { inc1 with notes := some n }
    | none => inc1
  if inc2.ended_at = none then { inc2 with ended_at := some now } else inc2

/-- `review_incident` (`incidents.py` lines 330-398): 404 (`none`) when the
incident id is unknown; otherwise mutate the incident and run the bulk
UPDATE that rewrites status, `reviewed_by` and `reviewed_at` of every alert
row whose `incident_id` matches. -/
def review_incident (db : List Incident) (alerts : List Alert) (incId : Nat)
    (verdict : ReviewVerdict) (reviewedBy : String) (notes : Option String) (now : ℚ) :
    Option (List Incident × List Alert) :=
  if db.any (fun inc => decide (inc.id = incId)) then
    some (updateFirst (fun inc => decide (inc.id = incId))
            (applyReview verdict reviewedBy notes now) db,
          alerts.map (fun a =>
            if a.incident_id = incId then
              { a with status := alert_status_map verdict,
                       reviewed_by := some reviewedBy, reviewed_at := some now }
            else a))
  else none

/-- One operation of the incident engine, tagged with the wall-clock time it
runs at when applied through `applyOp`. -/
inductive EngineOp
  | detect (newId : Nat) (cameraId cameraName location weaponType severity : String)
      (confidence : ℚ) (snapshot : String)
  | sweep
  | close (incId : Nat)
  | review (incId : Nat) (verdict : ReviewVerdict) (reviewedBy : String)
      (notes : Option String)

/-- Apply one engine operation to the incident table at time `now`. -/
def applyOp (db : List Incident) (op : EngineOp) (now : ℚ) : List Incident :=
  match op with
  | .detect newId cid cn loc w sev conf snap =>
      processDetection db newId cid cn loc w sev conf snap now
  | .sweep => auto_close_stale_incidents db now
  | .close incId => close_incident db incId now
  | .review incId verdict reviewedBy notes =>
      match review_incident db [] incId verdict reviewedBy notes now with
      | some (db', _) => db'
      | none => db

/-- Run a timestamped sequence of engine operations from an initial table. -/
def runOps (db : List Incident) : List (EngineOp × ℚ) → List Incident
  | [] => db
  | (op, t) :: rest => runOps (applyOp db op t) rest

/-- `MAX_ALERTS_PER_CAMERA = 5` (`stream.py` line 42). -/
def MAX_ALERTS_PER_CAMERA : Nat := 5

/-- The 10-second per-camera cooldown between individual alerts
(`stream.py` line 184). -/
def ALERT_COOLDOWN : ℚ := 10

/-- The per-camera entries of `_simulation_alert_count` and
`_simulation_alert_cooldown` for the camera under consideration (a missing
dict entry is the default 0). -/
structure ThrottleState where
  alert_count : Nat := 0
  last_alert_time : ℚ := 0
deriving DecidableEq, Repr

/-- The externally observable effects of one `create_simulation_alert`
call: whether an alert row was persisted, whether a WebSocket broadcast was
sent, and whether the external security notification fired. -/
structure SimOutcome where
  alertCreated : Bool
  broadcast : Bool
  notified : Bool
deriving DecidableEq, Repr

/-- `incident.alert_count` right after the statistics update, as read by
the `should_broadcast` test of `create_simulation_alert`: the matched
incident's count after `applyDetection`, or 1 for a fresh incident. -/
def updatedIncidentAlertCount (db : List Incident) (cameraId weaponType : String)
    (confidence : ℚ) (snapshot : String) (now : ℚ) : Nat :=
  match db.find? (incidentMatches cameraId weaponType now) with
  | some inc => (applyDetection confidence snapshot now inc).alert_count
  | none => 1

/-- `create_simulation_alert` (`stream.py` lines 154-339). Control flow:
if the per-camera count has reached `MAX_ALERTS_PER_CAMERA`, return `None`
immediately (bumping the counter once, at exactly the cap, to silence the
log message); else if the camera is inside the 10-second cooldown, return
`None`; otherwise record the alert time, bump the counter, persist the
alert through `get_or_create_incident` plus the statistics update,
broadcast over WebSocket only for a new incident or every 10th alert of
the incident, and send the external notification only for a new
incident. -/
def create_simulation_alert (ts : ThrottleState) (db : List Incident) (newId : Nat)
    (cameraId cameraName location weaponType severity : String)
    (confidence : ℚ) (snapshot : String) (now : ℚ) :
    SimOutcome × ThrottleState × List Incident :=
  if MAX_ALERTS_PER_CAMERA ≤ ts.alert_count then
    (⟨false, false, false⟩,
     { ts with alert_count :=
         if ts.alert_count = MAX_ALERTS_PER_CAMERA then ts.alert_count + 1
         else ts.alert_count },
     db)
  else if now - ts.last_alert_time < ALERT_COOLDOWN then
    (⟨false, false, false⟩, ts, db)
  else
    let ts' : ThrottleState := { alert_count := ts.alert_count + 1, last_alert_time := now }
    let isNew : Bool := ! db.any (incidentMatches cameraId weaponType now)
    let db' := processDetection db newId cameraId cameraName location weaponType severity
      confidence snapshot now
    let incAlertCount := updatedIncidentAlertCount db cameraId weaponType confidence snapshot now
    (⟨true, isNew || decide (incAlertCount % 10 = 0), isNew⟩, ts', db')

/-- The maximum shared-queue depth checked by `CameraReader.run`
(`multi_camera.py` line 206: `self.frame_queue.qsize() < 100`). -/
def MAX_QUEUE_SIZE : Nat := 100

/-- The loop-local state of `CameraReader.run` (`multi_camera.py` lines
182-231): the per-camera frame counter and the shared queue depth. -/
structure ReaderState where
  frame_count : Nat := 0
  queue_len : Nat := 0
deriving DecidableEq, Repr

/-- One iteration of the `CameraReader.run` while-loop body on a read
result. A successful read increments `frame_count`; the frame is enqueued
(second component `true`) exactly when `frame_count % skip_frames == 0`
and the queue holds fewer than 100 items, the frame being dropped
otherwise. A failed read logs, sleeps and continues with the state
unchanged. -/
def readerStep (skipFrames : Nat) (st : ReaderState) (readOk : Bool) : ReaderState × Bool :=
  if readOk then
    let fc := st.frame_count + 1
    if fc % skipFrames = 0 then
      if st.queue_len < MAX_QUEUE_SIZE then
        ({ frame_count := fc, queue_len := st.queue_len + 1 }, true)
      else ({ frame_count := fc, queue_len := st.queue_len }, false)
    else ({ frame_count := fc, queue_len := st.queue_len }, false)
  else (st, false)

/-- `CameraReader.run` over a finite trace of read results: the loop body
runs for every read until the stop event (the end of the trace); read
failures never terminate it. -/
def readerRun (skipFrames : Nat) (st : ReaderState) : List Bool → ReaderState
  | [] => st
  | r :: rs => readerRun skipFrames (readerStep skipFrames st r).1 rs

/-- `max_consecutive_failures = 10` in `generate_video_frames_with_detection`
(`stream.py` line 612). -/
def MAX_CONSECUTIVE_FAILURES : Nat := 10

/-- The loop-local state of `generate_video_frames_with_detection`
(`stream.py` lines 589-671): the consecutive-failure counter and the
number of frames processed. -/
structure StreamState where
  consecutive_failures : Nat := 0
  frame_count : Nat := 0
deriving DecidableEq, Repr

/-- One iteration of the streaming while-loop body: a good frame resets the
failure counter and counts the frame; a failed frame increments the
failure counter. -/
def streamStep (st : StreamState) (frameOk : Bool) : StreamState :=
  if frameOk then { consecutive_failures := 0, frame_count := st.frame_count + 1 }
  else { st with consecutive_failures := st.consecutive_failures + 1 }

/-- The `while consecutive_failures < max_consecutive_failures` loop of
`generate_video_frames_with_detection` over a finite trace of frame
results: the guard is re-checked before every iteration and the loop exits
for good once the counter reaches 10. -/
def streamRun (st : StreamState) : List Bool → StreamState
  | [] => st
  | r :: rs =>
    if st.consecutive_failures < MAX_CONSECUTIVE_FAILURES then streamRun (streamStep st r) rs
    else st

/-- The fixed per-pixel delta of `detect_motion`
(`cv2.threshold(diff, 25, 255, THRESH_BINARY)`, `stream.py` line 429): a
pixel counts as changed when its absolute difference exceeds 25. -/
def pixelChanged (p : Nat × Nat) : Bool :=
  decide (25 < max p.1 p.2 - min p.1 p.2)

/-- `change_ratio` of `detect_motion` (`stream.py` line 432): the fraction
of pixels of the downscaled grayscale pair whose absolute difference
exceeds the per-pixel delta (both frames are 160x120, so they have the
same length and the zip loses nothing). -/
def changeFraction (prev cur : List Nat) : ℚ :=
  (((prev.zip cur).countP pixelChanged : ℚ)) / (((prev.zip cur).length : ℚ))

/-- The recommended default threshold `0.02` of `detect_motion`. -/
def MOTION_THRESHOLD_DEFAULT : ℚ := 2 / 100

/-- `detect_motion` (`stream.py` lines 403-437) on the already downscaled,
blurred grayscale frame (the `cv2.resize`/`cvtColor`/`GaussianBlur`
preprocessing is outside the model): `cache` is the `_motion_cache` entry
for this camera. Returns the motion verdict together with the new cache
entry, which is always the current frame. -/
def detect_motion (cache : Option (List Nat)) (gray : List Nat) (threshold : ℚ) :
    Bool × List Nat :=
  match cache with
  | none => (true, gray)
  | some prev => (decide (threshold < changeFraction prev gray), gray)

/-- The `_last_hash` / `_skip_count` entries of `FrameBuffer`
(`detection_pipeline.py` lines 67-99) for the camera under consideration
(`last_hash = none` models the camera being absent from the dict). -/
structure FrameBufferState where
  last_hash : Option String := none
  skip_count : Nat := 0
deriving DecidableEq, Repr

/-- `FrameBuffer.should_skip` (`detection_pipeline.py` lines 80-99): a
never-seen camera stores the hash and is not skipped; a frame whose hash
equals the stored one bumps the consecutive-skip counter and is skipped
while the counter stays below 10; otherwise the hash is (re)stored, the
counter resets to 0 and the frame is processed. -/
def should_skip (st : FrameBufferState) (frameHash : String) : Bool × FrameBufferState :=
  match st.last_hash with
  | none => (false, { last_hash := some frameHash, skip_count := 0 })
  | some lh =>
    if lh = frameHash then
      let c := st.skip_count + 1
      if c < 10 then (true, { last_hash := some lh, skip_count := c })
      else (false, { last_hash := some frameHash, skip_count := 0 })
    else (false, { last_hash := some frameHash, skip_count := 0 })

/-- `should_skip` over a list of frame hashes, collecting the verdicts. -/
def runSkip (st : FrameBufferState) : List String → List Bool × FrameBufferState
  | [] => ([], st)
  | h :: hs =>
    let r := should_skip st h
    let rest := runSkip r.2 hs
    (r.1 :: rest.1, rest.2)

/-- The number of incidents of the table that the matching query of
`get_or_create_incident` would select for a given camera/weapon pair: the
ACTIVE incidents whose `last_detection_at` is within the 5-minute
window. -/
def pairFreshCount (db : List Incident) (cameraId weaponType : String) (now : ℚ) : Nat :=
  (db.filter (incidentMatches cameraId weaponType now)).length

/-- The invariant claimed in the spec's data-model section, as a decidable
per-table check: `ended_at` is set exactly on the non-ACTIVE incidents. -/
def endedIffNotActive (db : List Incident) : Bool :=
  db.all (fun inc => decide (inc.ended_at ≠ none ↔ inc.status ≠ IncidentState.active))

/-! Helper lemmas about `updateFirst`, filtering and the field-level effect
of the engine's mutations. -/

theorem length_filter_imp_le {α : Type} (q q' : α → Bool) (l : List α)
    (h : ∀ x, q' x = true → q x = true) :
    (l.filter q').length ≤ (l.filter q).length := by
  induction l with
  | nil => simp
  | cons a t ih =>
    simp only [List.filter_cons]
    by_cases hq' : q' a
    · simp [hq', h a hq']
      exact ih
    · by_cases hq : q a <;> simp [hq', hq] <;> omega

theorem length_filter_updateFirst_le {α : Type} (p q : α → Bool) (f : α → α) (l : List α)
    (h : ∀ x, p x = true → q (f x) = true → q x = true) :
    ((updateFirst p f l).filter q).length ≤ (l.filter q).length := by
  induction l with
  | nil => simp [updateFirst]
  | cons a t ih =>
    simp only [updateFirst]
    by_cases hpa : p a
    · simp only [hpa, if_true, List.filter_cons]
      by_cases hqfa : q (f a)
      · simp [hqfa, h a hpa hqfa]
      · by_cases hqa : q a <;> simp [hqfa, hqa] <;> omega
    · simp only [hpa, if_false, List.filter_cons]
      by_cases hqa : q a <;> simp [hqa] <;> omega

theorem length_filter_map_le {α : Type} (q : α → Bool) (g : α → α) (l : List α)
    (h : ∀ x, q (g x) = true → q x = true) :
    ((l.map g).filter q).length ≤ (l.filter q).length := by
  induction l with
  | nil => simp
  | cons a t ih =>
    simp only [List.map_cons, List.filter_cons]
    by_cases hqg : q (g a)
    · simp [hqg, h a hqg]
      exact ih
    · by_cases hqa : q a <;> simp [hqg, hqa] <;> omega

theorem forall_mem_updateFirst {α : Type} {P : α → Prop} (p : α → Bool) (f : α → α)
    (l : List α) (hl : ∀ x ∈ l, P x) (hf : ∀ x ∈ l, p x = true → P (f x)) :
    ∀ y ∈ updateFirst p f l, P y := by
  induction l with
  | nil => simp [updateFirst]
  | cons a t ih =>
    intro y hy
    simp only [updateFirst] at hy
    by_cases hpa : p a
    · simp only [hpa, if_true] at hy
      cases hy with
      | head => exact hf a (by simp) hpa
      | tail _ h1 => exact hl y (List.mem_cons_of_mem a h1)
    · simp only [hpa, if_false] at hy
      cases hy with
      | head => exact hl a (by simp)
      | tail _ h1 =>
        exact ih (fun x hx => hl x (by simp [hx])) (fun x hx hp => hf x (by simp [hx]) hp) y h1

theorem updateFirst_mem_of_exists {α : Type} (p : α → Bool) (f : α → α) (l : List α)
    (h : ∃ x ∈ l, p x = true) :
    ∃ x ∈ l, p x = true ∧ f x ∈ updateFirst p f l := by
  induction l with
  | nil => simp at h
  | cons a t ih =>
    by_cases hpa : p a
    · exact ⟨a, by simp, hpa, by simp [updateFirst, hpa]⟩
    · obtain ⟨x, hx, hpx⟩ := h
      rcases List.mem_cons.mp hx with rfl | hx
      · exact absurd hpx (by simp [hpa])
      · obtain ⟨y, hy, hpy, hmem⟩ := ih ⟨x, hx, hpx⟩
        exact ⟨y, by simp [hy], hpy, by simp [updateFirst, hpa, hmem]⟩

theorem incidentMatches_mono (cameraId weaponType : String) {t t' : ℚ} (ht : t ≤ t')
    (inc : Incident) (h : incidentMatches cameraId weaponType t' inc = true) :
    incidentMatches cameraId weaponType t inc = true := by
  simp only [incidentMatches, decide_eq_true_eq] at h ⊢
  exact ⟨h.1, h.2.1, h.2.2.1, le_trans (by linarith [h.2.2.2]) h.2.2.2⟩

theorem applyDetection_camera_id (c : ℚ) (s : String) (n : ℚ) (inc : Incident) :
    (applyDetection c s n inc).camera_id = inc.camera_id := by
  simp only [applyDetection]; split <;> split <;> rfl

theorem applyDetection_weapon (c : ℚ) (s : String) (n : ℚ) (inc : Incident) :
    (applyDetection c s n inc).primary_weapon_type = inc.primary_weapon_type := by
  simp only [applyDetection]; split <;> split <;> rfl

theorem applyDetection_status (c : ℚ) (s : String) (n : ℚ) (inc : Incident) :
    (applyDetection c s n inc).status = inc.status := by
  simp only [applyDetection]; split <;> split <;> rfl

theorem applyDetection_ended_at (c : ℚ) (s : String) (n : ℚ) (inc : Incident) :
    (applyDetection c s n inc).ended_at = inc.ended_at := by
  simp only [applyDetection]; split <;> split <;> rfl

theorem applyDetection_last (c : ℚ) (s : String) (n : ℚ) (inc : Incident) :
    (applyDetection c s n inc).last_detection_at = n := by
  simp only [applyDetection]; split <;> split <;> rfl

theorem applyDetection_alert_count (c : ℚ) (s : String) (n : ℚ) (inc : Incident) :
    (applyDetection c s n inc).alert_count = inc.alert_count + 1 := by
  simp only [applyDetection]; split <;> split <;> rfl

theorem applyReview_id (v : ReviewVerdict) (rb : String) (notes : Option String) (now : ℚ)
    (inc : Incident) : (applyReview v rb notes now inc).id = inc.id := by
  simp only [applyReview]; cases notes <;> split <;> rfl

theorem applyReview_status (v : ReviewVerdict) (rb : String) (notes : Option String) (now : ℚ)
    (inc : Incident) : (applyReview v rb notes now inc).status = v.toIncidentState := by
  simp only [applyReview]; cases notes <;> split <;> rfl

theorem applyReview_reviewed_by (v : ReviewVerdict) (rb : String) (notes : Option String)
    (now : ℚ) (inc : Incident) : (applyReview v rb notes now inc).reviewed_by = some rb := by
  simp only [applyReview]; cases notes <;> split <;> rfl

theorem applyReview_reviewed_at (v : ReviewVerdict) (rb : String) (notes : Option String)
    (now : ℚ) (inc : Incident) : (applyReview v rb notes now inc).reviewed_at = some now := by
  simp only [applyReview]; cases notes <;> split <;> rfl

theorem applyReview_notes_of_some (v : ReviewVerdict) (rb : String) (n : String) (now : ℚ)
    (inc : Incident) : (applyReview v rb (some n) now inc).notes = some n := by
  simp only [applyReview]; split <;> rfl

theorem applyReview_ended_ne_none (v : ReviewVerdict) (rb : String) (notes : Option String)
    (now : ℚ) (inc : Incident) : (applyReview v rb notes now inc).ended_at ≠ none := by
  simp only [applyReview]
  cases notes <;> split <;> simp_all

theorem toIncidentState_ne_active (v : ReviewVerdict) :
    v.toIncidentState ≠ IncidentState.active := by
  cases v <;> simp [ReviewVerdict.toIncidentState]

theorem staleActive_closeStale (now : ℚ) (inc : Incident) :
    staleActive now (closeStale now inc) = false := by
  by_cases h : staleActive now inc
  · simp only [closeStale, h, if_true]
    simp [staleActive]
  · simp only [closeStale, h, if_false]
    exact Bool.eq_false_iff.mpr h

theorem closeStale_idem (now : ℚ) (inc : Incident) :
    closeStale now (closeStale now inc) = closeStale now inc := by
  have h := staleActive_closeStale now inc
  conv_lhs => rw [closeStale]
  simp [h]

/-- C4: one run of the stale-incident sweep closes exactly the ACTIVE
incidents whose last detection is older than the 5-minute timeout, setting
`ended_at = now`, leaves everything else untouched, and the sweep is
idempotent: immediately afterwards no stale ACTIVE incident remains, so a
second run finds nothing to close and changes nothing. -/
theorem auto_close_sweep_idempotent (db : List Incident) (now : ℚ) :
    (∀ inc ∈ db, staleActive now inc = true →
      { inc with status := IncidentState.closed, ended_at := some now } ∈
        auto_close_stale_incidents db now)
    ∧ (∀ inc ∈ db, staleActive now inc = false → inc ∈ auto_close_stale_incidents db now)
    ∧ (auto_close_stale_incidents db now).filter (staleActive now) = []
    ∧ auto_close_stale_incidents (auto_close_stale_incidents db now) now =
        auto_close_stale_incidents db now := by
  refine ⟨?_, ?_, ?_, ?_⟩
  · intro inc hmem hst
    have hcs : closeStale now inc =
        { inc with status := IncidentState.closed, ended_at := some now } := by
      simp [closeStale, hst]
    exact hcs ▸ List.mem_map_of_mem (closeStale now) hmem
  · intro inc hmem hst
    have hcs : closeStale now inc = inc := by simp [closeStale, hst]
    exact hcs ▸ List.mem_map_of_mem (closeStale now) hmem
  · rw [List.filter_eq_nil]
    intro a ha
    obtain ⟨x, _, rfl⟩ := List.mem_map.mp ha
    simp [staleActive_closeStale]
  · simp only [auto_close_stale_incidents, List.map_map]
    exact List.map_congr_left (fun x _ => by simp [Function.comp, closeStale_idem])

/-- Witness for C4 at a concrete table: an incident last updated at time 0
is stale at time 400 (timeout 300 s); the sweep closes it and a second
sweep finds nothing stale. -/
theorem auto_close_sweep_idempotent_witness :
    staleActive 400 (newIncident 0 "cam-1" "n" "l" "Handgun" "crit" 0) = true
    ∧ ({ newIncident 0 "cam-1" "n" "l" "Handgun" "crit" 0 with
          status := IncidentState.closed, ended_at := some 400 } ∈
        auto_close_stale_incidents [newIncident 0 "cam-1" "n" "l" "Handgun" "crit" 0] 400)
    ∧ (auto_close_stale_incidents [newIncident 0 "cam-1" "n" "l" "Handgun" "crit" 0] 400).filter
        (staleActive 400) = [] := by
  have hst : staleActive 400 (newIncident 0 "cam-1" "n" "l" "Handgun" "crit" 0) = true := by
    norm_num [staleActive, newIncident, INCIDENT_TIMEOUT]
  have h := auto_close_sweep_idempotent [newIncident 0 "cam-1" "n" "l" "Handgun" "crit" 0] 400
  exact ⟨hst, h.1 _ (by simp) hst, h.2.2.1⟩

/-- C8: the motion gate returns true on a cold start (no stored previous
frame for the camera) or when the fraction of pixels whose absolute
difference from the stored previous frame exceeds the 25/255 per-pixel
delta is strictly greater than the threshold; and in every case the stored
previous frame is replaced by the current downscaled frame. -/
theorem detect_motion_correct (cache : Option (List Nat)) (gray : List Nat) (threshold : ℚ) :
    ((detect_motion cache gray threshold).1 = true ↔
      cache = none ∨
        ∃ prev, cache = some prev ∧ threshold < changeFraction prev gray)
    ∧ (detect_motion cache gray threshold).2 = gray := by
  cases cache with
  | none => simp [detect_motion]
  | some prev => simp [detect_motion]

theorem should_skip_trace (h : String) :
    runSkip ⟨some h, 0⟩ [h, h, h, h, h, h, h, h, h, h] =
      ([true, true, true, true, true, true, true, true, true, false], ⟨some h, 0⟩) := by
  simp [runSkip, should_skip]

/-- C10: the similarity skipper never skips a frame whose hash differs from
the stored hash (or a first frame for the camera); a skipped frame always
comes from a state holding the same hash, bumps the consecutive-skip
counter and requires the bumped counter to stay below 10; a processed
frame resets the counter to 0; the stored state after any call holds the
current hash and a counter of at most 9; and from a freshly stored hash,
ten identical-hash frames yield exactly nine skips followed by a
processed frame with the counter reset to 0. -/
theorem should_skip_consecutive_bound (st : FrameBufferState) (h : String) :
    ((should_skip st h).1 = true →
      st.last_hash = some h ∧ (should_skip st h).2.skip_count = st.skip_count + 1 ∧
        st.skip_count + 1 < 10)
    ∧ ((should_skip st h).1 = false → (should_skip st h).2.skip_count = 0)
    ∧ (st.last_hash = none → should_skip st h = (false, ⟨some h, 0⟩))
    ∧ (∀ lh, st.last_hash = some lh → lh ≠ h → should_skip st h = (false, ⟨some h, 0⟩))
    ∧ (should_skip st h).2.last_hash = some h
    ∧ (should_skip st h).2.skip_count ≤ 9
    ∧ runSkip ⟨some h, 0⟩ [h, h, h, h, h, h, h, h, h, h] =
        ([true, true, true, true, true, true, true, true, true, false], ⟨some h, 0⟩) := by
  obtain ⟨lh?, c⟩ := st
  cases lh? with
  | none =>
    refine ⟨?_, ?_, ?_, ?_, ?_, ?_, should_skip_trace h⟩ <;> simp [should_skip]
  | some lh =>
    by_cases heq : lh = h
    · subst heq
      by_cases hc : c + 1 < 10
      · refine ⟨?_, ?_, ?_, ?_, ?_, ?_, should_skip_trace lh⟩ <;>
          simp [should_skip, hc] <;> omega
      · refine ⟨?_, ?_, ?_, ?_, ?_, ?_, should_skip_trace lh⟩ <;>
          simp [should_skip, hc]
    · refine ⟨?_, ?_, ?_, ?_, ?_, ?_, should_skip_trace h⟩ <;>
        simp [should_skip, heq]

/-- Witness for C10: a frame with a different hash is processed (with the
new hash stored and the counter reset), and the concrete ten-identical
trace does nine skips then one pass. -/
theorem should_skip_consecutive_bound_witness :
    (⟨some "h1", 3⟩ : FrameBufferState).last_hash = some "h1"
    ∧ should_skip ⟨some "h1", 3⟩ "h2" = (false, ⟨some "h2", 0⟩)
    ∧ runSkip ⟨some "h1", 0⟩ ["h1", "h1", "h1", "h1", "h1", "h1", "h1", "h1", "h1", "h1"] =
        ([true, true, true, true, true, true, true, true, true, false], ⟨some "h1", 0⟩) := by
  have h := should_skip_consecutive_bound ⟨some "h1", 3⟩ "h2"
  exact ⟨rfl, h.2.2.2.1 "h1" rfl (by decide),
    (should_skip_consecutive_bound ⟨some "h1", 0⟩ "h1").2.2.2.2.2.2⟩

/-- C9 counterexample: the `CameraReader.run` loop in `multi_camera.py`
keeps no failure counter — after 11 consecutive read failures it still
processes the next successful frame (frame counter reaches 1), whereas a
loop that exits after 10 consecutive failures, like the one in
`generate_video_frames_with_detection`, never reads it (frame counter
stays 0). -/
theorem reader_loop_survives_failures_counterexample :
    (readerRun 5 ⟨0, 0⟩ (List.replicate 11 false ++ [true])).frame_count = 1
    ∧ (streamRun ⟨0, 0⟩ (List.replicate 11 false ++ [true])).frame_count = 0 := by
  constructor <;> decide

theorem streamRun_halted (st : StreamState) (rs : List Bool)
    (h : MAX_CONSECUTIVE_FAILURES ≤ st.consecutive_failures) : streamRun st rs = st := by
  cases rs with
  | nil => rfl
  | cons r rs => simp [streamRun, Nat.not_lt.mpr h]

theorem streamRun_replicate_false (j : Nat) :
    ∀ (st : StreamState) (rest : List Bool),
      MAX_CONSECUTIVE_FAILURES ≤ st.consecutive_failures + j →
      streamRun st (List.replicate j false ++ rest) = streamRun st (List.replicate j false) := by
  induction j with
  | zero =>
    intro st rest h
    simpa using streamRun_halted st rest (by simpa using h)
  | succ j ih =>
    intro st rest h
    by_cases hc : st.consecutive_failures < MAX_CONSECUTIVE_FAILURES
    · simp only [List.replicate_succ, List.cons_append, streamRun, hc, if_true]
      exact ih (streamStep st false) rest (by simp [streamStep]; omega)
    · simp only [List.replicate_succ, List.cons_append, streamRun, hc, if_false]

theorem readerRun_skips_failures (skipFrames : Nat) (st : ReaderState) (k : Nat)
    (rest : List Bool) :
    readerRun skipFrames st (List.replicate k false ++ rest) = readerRun skipFrames st rest := by
  induction k generalizing st with
  | zero => rfl
  | succ k ih =>
    simp only [List.replicate_succ, List.cons_append, readerRun, readerStep, if_false]
    exact ih st

/-- C9 (amended): the MJPEG streaming loop of
`generate_video_frames_with_detection` stops for good once the
consecutive-failure counter reaches 10 (anything fed after 10 consecutive
failures is never processed, and a halted loop state never changes); the
`CameraReader.run` loop of `multi_camera.py`, by contrast, counts no
failures — failed reads leave its state untouched and it keeps reading
until its stop event. -/
theorem stream_loop_exits_after_ten_failures (st : StreamState) (rs : List Bool)
    (skipFrames : Nat) (rst : ReaderState) (k : Nat) (rest : List Bool)
    (h : MAX_CONSECUTIVE_FAILURES ≤ st.consecutive_failures) :
    streamRun st rs = st
    ∧ (∀ (st0 : StreamState) (rest0 : List Bool),
        streamRun st0 (List.replicate 10 false ++ rest0) =
          streamRun st0 (List.replicate 10 false))
    ∧ readerRun skipFrames rst (List.replicate k false ++ rest) =
        readerRun skipFrames rst rest :=
  ⟨streamRun_halted st rs h,
   fun st0 rest0 => streamRun_replicate_false 10 st0 rest0 (by simp [MAX_CONSECUTIVE_FAILURES]),
   readerRun_skips_failures skipFrames rst k rest⟩

/-- Witness for C9 at concrete states: a streaming loop that has already
hit 10 consecutive failures ignores further good frames, while the reader
loop processes a frame arriving after 11 failures. -/
theorem stream_loop_exits_after_ten_failures_witness :
    MAX_CONSECUTIVE_FAILURES ≤ (10 : Nat)
    ∧ streamRun ⟨10, 0⟩ [true, true, true] = ⟨10, 0⟩
    ∧ readerRun 5 ⟨0, 0⟩ (List.replicate 11 false ++ [true]) = readerRun 5 ⟨0, 0⟩ [true] :=
  ⟨by decide,
   (stream_loop_exits_after_ten_failures ⟨10, 0⟩ [true, true, true] 5 ⟨0, 0⟩ 11 [true]
      (by decide)).1,
   (stream_loop_exits_after_ten_failures ⟨10, 0⟩ [true, true, true] 5 ⟨0, 0⟩ 11 [true]
      (by decide)).2.2⟩

theorem add_detection_detection_count (inc : Incident) (c now : ℚ) :
    (inc.add_detection c now).detection_count = inc.detection_count + 1 := by
  simp only [Incident.add_detection]; split <;> split <;> rfl

theorem add_detection_last (inc : Incident) (c now : ℚ) :
    (inc.add_detection c now).last_detection_at = now := by
  simp only [Incident.add_detection]; split <;> split <;> rfl

theorem add_detection_max (inc : Incident) (c now : ℚ) :
    (inc.add_detection c now).max_confidence = max inc.max_confidence c := by
  simp only [Incident.add_detection]
  split <;> split <;> simp_all <;> linarith

theorem add_detection_avg (inc : Incident) (c now : ℚ)
    (h : inc.avg_confidence ≠ 0 ∨ inc.detection_count = 0) :
    (inc.add_detection c now).avg_confidence =
      (inc.avg_confidence * (inc.detection_count : ℚ) + c) /
        ((inc.detection_count : ℚ) + 1) := by
  rcases h with h | h
  · by_cases hmax : inc.max_confidence < c <;>
      simp [Incident.add_detection, hmax, h]
  · by_cases hmax : inc.max_confidence < c <;> by_cases hz : inc.avg_confidence = 0 <;>
      simp [Incident.add_detection, hmax, hz, h]

/-- C2 (amended): every incident update increments `detection_count`, sets
`last_detection_at = now` and raises `max_confidence` to
`max(max_confidence, c)`; `avg_confidence` follows the incremental mean
`(avg*(n-1)+c)/n` (n the post-increment count) whenever the pre-update
average is nonzero or the incident is fresh — when the running average is
0 with detections already recorded (only possible if every earlier
confidence was 0) the code sets the average to `c` instead. Feeding
0.5, 0.7, 0.9 into a fresh incident yields `avg_confidence = 0.7` and
`max_confidence = 0.9`. -/
theorem add_detection_statistics (inc : Incident) (c now t1 t2 t3 : ℚ)
    (h : inc.avg_confidence ≠ 0 ∨ inc.detection_count = 0) :
    (inc.add_detection c now).detection_count = inc.detection_count + 1
    ∧ (inc.add_detection c now).last_detection_at = now
    ∧ (inc.add_detection c now).max_confidence = max inc.max_confidence c
    ∧ (inc.add_detection c now).avg_confidence =
        (inc.avg_confidence * (inc.detection_count : ℚ) + c) /
          ((inc.detection_count : ℚ) + 1)
    ∧ ((((newIncident 0 "cam-1" "n" "l" "Handgun" "crit" 0).add_detection (1/2) t1
          ).add_detection (7/10) t2).add_detection (9/10) t3).avg_confidence =
        (1/2 + 7/10 + 9/10) / 3
    ∧ ((((newIncident 0 "cam-1" "n" "l" "Handgun" "crit" 0).add_detection (1/2) t1
          ).add_detection (7/10) t2).add_detection (9/10) t3).max_confidence = 9/10 := by
  refine ⟨add_detection_detection_count inc c now, add_detection_last inc c now,
    add_detection_max inc c now, add_detection_avg inc c now h, ?_, ?_⟩ <;>
    norm_num [Incident.add_detection, newIncident]

/-- Witness for C2 at a fresh incident (detection count 0). -/
theorem add_detection_statistics_witness :
    (newIncident 0 "cam-1" "n" "l" "Handgun" "crit" 0).detection_count = 0
    ∧ ((newIncident 0 "cam-1" "n" "l" "Handgun" "crit" 0).add_detection (3/4) 5
        ).last_detection_at = 5 :=
  ⟨rfl, (add_detection_statistics (newIncident 0 "cam-1" "n" "l" "Handgun" "crit" 0)
      (3/4) 5 1 2 3 (Or.inr rfl)).2.1⟩

/-- C2 counterexample: after confidences 0 and 0.5 the code's running
average is 0.5 (the `avg == 0` branch re-seeds it), while the claimed
incremental-mean formula `(avg*(n-1)+c)/n` evaluates to 0.25 at that same
update. -/
theorem incremental_mean_counterexample :
    (((newIncident 0 "cam-1" "n" "l" "Handgun" "crit" 0).add_detection 0 1
        ).add_detection (1/2) 2).avg_confidence = 1/2
    ∧ ((newIncident 0 "cam-1" "n" "l" "Handgun" "crit" 0).add_detection 0 1
        ).avg_confidence = 0
    ∧ (((newIncident 0 "cam-1" "n" "l" "Handgun" "crit" 0).add_detection 0 1
        ).add_detection (1/2) 2).detection_count = 2
    ∧ ((0 : ℚ) * ((2 : ℚ) - 1) + 1/2) / (2 : ℚ) = 1/4
    ∧ (1/2 : ℚ) ≠ 1/4 := by
  refine ⟨?_, ?_, ?_, by norm_num, by norm_num⟩ <;>
    norm_num [Incident.add_detection, newIncident]

/-- C7: on every successfully captured frame the reader increments its
frame counter; the frame is enqueued exactly when the incremented counter
is a multiple of the skip interval K and the shared queue holds fewer than
100 items; an eligible frame finding the queue at 100 items is dropped
with the queue untouched; and any window of K consecutive counter values
contains exactly one multiple of K (one enqueue-eligible frame). -/
theorem skip_interval_correct (K : Nat) (st : ReaderState) (n : Nat) (hK : 0 < K) :
    (readerStep K st true).1.frame_count = st.frame_count + 1
    ∧ ((readerStep K st true).2 = true ↔
        (st.frame_count + 1) % K = 0 ∧ st.queue_len < MAX_QUEUE_SIZE)
    ∧ (MAX_QUEUE_SIZE ≤ st.queue_len →
        (readerStep K st true).2 = false ∧ (readerStep K st true).1.queue_len = st.queue_len)
    ∧ ((Finset.Ico (n + 1) (n + 1 + K)).filter (fun i => i % K = 0)).card = 1 := by
  refine ⟨?_, ?_, ?_, ?_⟩
  · simp only [readerStep, if_true]
    split <;> [split <;> rfl; rfl]
  · simp only [readerStep, if_true]
    by_cases h1 : (st.frame_count + 1) % K = 0 <;>
      by_cases h2 : st.queue_len < MAX_QUEUE_SIZE <;> simp [h1, h2]
  · intro hq
    have h2 : ¬ st.queue_len < MAX_QUEUE_SIZE := Nat.not_lt.mpr hq
    simp only [readerStep, if_true]
    by_cases h1 : (st.frame_count + 1) % K = 0 <;> simp [h1, h2]
  · have hdm : K * (n / K) + n % K = n := Nat.div_add_mod n K
    have hmlt : n % K < K := Nat.mod_lt n hK
    apply Finset.card_eq_one.mpr
    refine ⟨K * (n / K) + K, ?_⟩
    ext x
    simp only [Finset.mem_filter, Finset.mem_Ico, Finset.mem_singleton]
    constructor
    · rintro ⟨⟨hx1, hx2⟩, hx3⟩
      obtain ⟨b, rfl⟩ := Nat.dvd_of_mod_eq_zero hx3
      have hq1 : n / K < b := by
        apply Nat.lt_of_mul_lt_mul_left (a := K)
        calc K * (n / K) ≤ n := Nat.le.intro hdm
        _ < K * b := hx1
      have hq2 : b < n / K + 2 := by
        apply Nat.lt_of_mul_lt_mul_left (a := K)
        calc K * b < n + 1 + K := hx2
        _ ≤ K * (n / K) + K + K := by omega
        _ = K * (n / K + 2) := by ring
      have hb : b = n / K + 1 := by omega
      subst hb; ring
    · rintro rfl
      have hle : K * (n / K) ≤ n := Nat.le.intro hdm
      refine ⟨⟨?_, ?_⟩, ?_⟩
      · omega
      · omega
      · rw [← Nat.mul_succ]
        exact Nat.mul_mod_right K (n / K + 1)

/-- Witness for C7 with skip interval 5 starting after frame 7: the window
of counters 8..12 holds exactly one multiple of 5, and a successful read
bumps the counter. -/
theorem skip_interval_correct_witness :
    (0 : Nat) < 5
    ∧ ((Finset.Ico (7 + 1) (7 + 1 + 5)).filter (fun i => i % 5 = 0)).card = 1
    ∧ (readerStep 5 ⟨7, 0⟩ true).1.frame_count = 7 + 1 :=
  ⟨by decide, (skip_interval_correct 5 ⟨7, 0⟩ 7 (by decide)).2.2.2,
   (skip_interval_correct 5 ⟨7, 0⟩ 7 (by decide)).1⟩

/-- C3 (amended): a new alert is fully suppressed (no alert row, no
broadcast, no notification, table untouched) whenever the per-camera
counter has reached the cap of 5 — even for a detection that would create
a new incident — and stays suppressed until a manual reset; below the cap
it is suppressed whenever the camera is within the 10-second cooldown.
When neither gate fires, the alert is persisted, the WebSocket broadcast
happens exactly for a new incident or when the incident's post-update
alert count is a multiple of 10, and the external notification fires
exactly for a new incident. -/
theorem alert_throttle_behavior (ts : ThrottleState) (db : List Incident) (newId : Nat)
    (cid cn loc w sev : String) (conf : ℚ) (snap : String) (now : ℚ) :
    (ts.alert_count < MAX_ALERTS_PER_CAMERA → now - ts.last_alert_time < ALERT_COOLDOWN →
      create_simulation_alert ts db newId cid cn loc w sev conf snap now =
        (⟨false, false, false⟩, ts, db))
    ∧ (MAX_ALERTS_PER_CAMERA ≤ ts.alert_count →
      (create_simulation_alert ts db newId cid cn loc w sev conf snap now).1 =
        ⟨false, false, false⟩
      ∧ (create_simulation_alert ts db newId cid cn loc w sev conf snap now).2.2 = db)
    ∧ (ts.alert_count < MAX_ALERTS_PER_CAMERA → ALERT_COOLDOWN ≤ now - ts.last_alert_time →
      (create_simulation_alert ts db newId cid cn loc w sev conf snap now).1.alertCreated = true
      ∧ ((create_simulation_alert ts db newId cid cn loc w sev conf snap now).1.notified = true ↔
          db.any (incidentMatches cid w now) = false)
      ∧ ((create_simulation_alert ts db newId cid cn loc w sev conf snap now).1.broadcast = true ↔
          (db.any (incidentMatches cid w now) = false ∨
            updatedIncidentAlertCount db cid w conf snap now % 10 = 0))
      ∧ (create_simulation_alert ts db newId cid cn loc w sev conf snap now).2.1 =
          ⟨ts.alert_count + 1, now⟩
      ∧ (create_simulation_alert ts db newId cid cn loc w sev conf snap now).2.2 =
          processDetection db newId cid cn loc w sev conf snap now) := by
  refine ⟨?_, ?_, ?_⟩
  · intro hcap hcool
    have hcap' : ¬ MAX_ALERTS_PER_CAMERA ≤ ts.alert_count := Nat.not_le.mpr hcap
    simp [create_simulation_alert, hcap', hcool]
  · intro hcap
    simp [create_simulation_alert, hcap]
  · intro hcap hcool
    have hcap' : ¬ MAX_ALERTS_PER_CAMERA ≤ ts.alert_count := Nat.not_le.mpr hcap
    have hcool' : ¬ now - ts.last_alert_time < ALERT_COOLDOWN := not_lt.mpr hcool
    refine ⟨?_, ?_, ?_, ?_, ?_⟩ <;>
      simp [create_simulation_alert, hcap', hcool', Bool.or_eq_true, Bool.not_eq_true',
        decide_eq_true_eq]

/-- Witness for C3: below the cap and out of cooldown, an
incident-creating detection persists an alert, broadcasts and notifies;
at the cap everything is suppressed. -/
theorem alert_throttle_behavior_witness :
    (2 : Nat) < MAX_ALERTS_PER_CAMERA
    ∧ ALERT_COOLDOWN ≤ (100 : ℚ) - 0
    ∧ (create_simulation_alert ⟨2, 0⟩ [] 0 "cam-1" "n" "l" "Handgun" "crit" (9/10) "snap"
        100).1.alertCreated = true
    ∧ MAX_ALERTS_PER_CAMERA ≤ (5 : Nat)
    ∧ (create_simulation_alert ⟨5, 0⟩ [] 0 "cam-1" "n" "l" "Handgun" "crit" (9/10) "snap"
        100).1 = ⟨false, false, false⟩ := by
  refine ⟨by decide, by norm_num [ALERT_COOLDOWN], ?_, by decide, ?_⟩
  · exact (alert_throttle_behavior ⟨2, 0⟩ [] 0 "cam-1" "n" "l" "Handgun" "crit" (9/10) "snap"
      100).2.2 (by decide) (by norm_num [ALERT_COOLDOWN])
        |>.1
  · exact ((alert_throttle_behavior ⟨5, 0⟩ [] 0 "cam-1" "n" "l" "Handgun" "crit" (9/10) "snap"
      100).2.1 (by decide)).1

/-- C3 counterexample: with the per-camera counter at the cap (5) and an
empty incident table — so the detection would create a new incident — the
code suppresses everything: no alert row, no broadcast, no notification;
the claim instead says such an incident-creating detection still triggers
a broadcast. -/
theorem notification_cap_counterexample :
    ([] : List Incident).any (incidentMatches "cam-1" "Handgun" 100) = false
    ∧ (create_simulation_alert ⟨5, 0⟩ [] 0 "cam-1" "n" "l" "Handgun" "crit" (9/10) "snap"
        100).1.broadcast = false
    ∧ (create_simulation_alert ⟨5, 0⟩ [] 0 "cam-1" "n" "l" "Handgun" "crit" (9/10) "snap"
        100).1.alertCreated = false
    ∧ (create_simulation_alert ⟨5, 0⟩ [] 0 "cam-1" "n" "l" "Handgun" "crit" (9/10) "snap"
        100).1.notified = false := by
  refine ⟨rfl, ?_, ?_, ?_⟩ <;> norm_num [create_simulation_alert, MAX_ALERTS_PER_CAMERA]

/-- C6: a manual review with verdict Reviewed, Confirmed or FalseAlarm
stores the verdict as the incident status, sets `reviewed_by` and
`reviewed_at` (and the notes when provided), and rewrites the status of
every child alert row of that incident by the mapping Confirmed to
Confirmed, FalseAlarm to FalseAlarm, Reviewed to UnderReview, leaving
alerts of other incidents untouched. -/
theorem review_incident_cascades (db : List Incident) (alerts : List Alert) (incId : Nat)
    (verdict : ReviewVerdict) (reviewedBy : String) (notes : Option String) (now : ℚ)
    (db' : List Incident) (alerts' : List Alert)
    (heq : review_incident db alerts incId verdict reviewedBy notes now = some (db', alerts')) :
    (∃ inc ∈ db', inc.id = incId ∧ inc.status = verdict.toIncidentState ∧
      inc.reviewed_by = some reviewedBy ∧ inc.reviewed_at = some now ∧
      (∀ n, notes = some n → inc.notes = some n))
    ∧ (∀ a ∈ alerts, a.incident_id = incId →
        { a with status := alert_status_map verdict,
                 reviewed_by := some reviewedBy, reviewed_at := some now } ∈ alerts')
    ∧ (∀ a ∈ alerts, a.incident_id ≠ incId → a ∈ alerts') := by
  by_cases hany : db.any (fun inc => decide (inc.id = incId))
  · simp only [review_incident, hany, if_true, Option.some.injEq, Prod.mk.injEq] at heq
    obtain ⟨hdb, halerts⟩ := heq
    subst hdb
    subst halerts
    refine ⟨?_, ?_, ?_⟩
    · have hex : ∃ x ∈ db, (fun inc => decide (inc.id = incId)) x = true := by
        simpa [List.any_eq_true] using hany
      obtain ⟨x, hx, hpx, hmem⟩ := updateFirst_mem_of_exists
        (fun inc => decide (inc.id = incId)) (applyReview verdict reviewedBy notes now) db hex
      refine ⟨applyReview verdict reviewedBy notes now x, hmem, ?_, ?_, ?_, ?_, ?_⟩
      · rw [applyReview_id]
        exact of_decide_eq_true hpx
      · exact applyReview_status verdict reviewedBy notes now x
      · exact applyReview_reviewed_by verdict reviewedBy notes now x
      · exact applyReview_reviewed_at verdict reviewedBy notes now x
      · intro n hn
        subst hn
        exact applyReview_notes_of_some verdict reviewedBy n now x
    · intro a ha haid
      refine List.mem_map.mpr ⟨a, ha, ?_⟩
      simp [haid]
    · intro a ha haid
      refine List.mem_map.mpr ⟨a, ha, ?_⟩
      simp [haid]
  · simp [review_incident, hany] at heq

/-- Witness for C6 at a concrete incident with one child alert and one
foreign alert: the child alert is rewritten to UnderReview, the foreign
alert survives unchanged. -/
theorem review_incident_cascades_witness :
    review_incident [newIncident 0 "cam-1" "n" "l" "Handgun" "crit" 0]
        [{ id := "a0", incident_id := 0, camera_id := "cam-1", status := AlertState.new },
         { id := "a1", incident_id := 7, camera_id := "cam-2", status := AlertState.new }]
        0 ReviewVerdict.reviewed "supervisor" none 5 =
      some (updateFirst (fun inc => decide (inc.id = 0))
              (applyReview ReviewVerdict.reviewed "supervisor" none 5)
              [newIncident 0 "cam-1" "n" "l" "Handgun" "crit" 0],
            [{ id := "a0", incident_id := 0, camera_id := "cam-1",
               status := AlertState.underReview, reviewed_by := some "supervisor",
               reviewed_at := some 5 },
             { id := "a1", incident_id := 7, camera_id := "cam-2", status := AlertState.new }])
    ∧ ({ id := "a0", incident_id := 0, camera_id := "cam-1",
         status := AlertState.underReview, reviewed_by := some "supervisor",
         reviewed_at := some 5 } : Alert) ∈
        [({ id := "a0", incident_id := 0, camera_id := "cam-1",
            status := AlertState.underReview, reviewed_by := some "supervisor",
            reviewed_at := some 5 } : Alert),
         { id := "a1", incident_id := 7, camera_id := "cam-2", status := AlertState.new }]
    ∧ ({ id := "a1", incident_id := 7, camera_id := "cam-2", status := AlertState.new } : Alert) ∈
        [({ id := "a0", incident_id := 0, camera_id := "cam-1",
            status := AlertState.underReview, reviewed_by := some "supervisor",
            reviewed_at := some 5 } : Alert),
         { id := "a1", incident_id := 7, camera_id := "cam-2", status := AlertState.new }] := by
  have heq : review_incident [newIncident 0 "cam-1" "n" "l" "Handgun" "crit" 0]
      [{ id := "a0", incident_id := 0, camera_id := "cam-1", status := AlertState.new },
       { id := "a1", incident_id := 7, camera_id := "cam-2", status := AlertState.new }]
      0 ReviewVerdict.reviewed "supervisor" none 5 =
      some (updateFirst (fun inc => decide (inc.id = 0))
              (applyReview ReviewVerdict.reviewed "supervisor" none 5)
              [newIncident 0 "cam-1" "n" "l" "Handgun" "crit" 0],
            [{ id := "a0", incident_id := 0, camera_id := "cam-1",
               status := AlertState.underReview, reviewed_by := some "supervisor",
               reviewed_at := some 5 },
             { id := "a1", incident_id := 7, camera_id := "cam-2", status := AlertState.new }]) := by
    simp [review_incident, newIncident, alert_status_map]
  have h := review_incident_cascades _ _ 0 ReviewVerdict.reviewed "supervisor" none 5 _ _ heq
  exact ⟨heq,
    h.2.1 { id := "a0", incident_id := 0, camera_id := "cam-1", status := AlertState.new }
      (by simp) rfl,
    h.2.2 { id := "a1", incident_id := 7, camera_id := "cam-2", status := AlertState.new }
      (by simp) (by decide)⟩

theorem endedIffNotActive_iff (db : List Incident) :
    endedIffNotActive db = true ↔
      ∀ inc ∈ db, (inc.ended_at ≠ none ↔ inc.status ≠ IncidentState.active) := by
  simp [endedIffNotActive, List.all_eq_true, not_iff_not]

theorem ended_invariant_step (db : List Incident) (op : EngineOp) (t : ℚ)
    (h : ∀ inc ∈ db, (inc.ended_at ≠ none ↔ inc.status ≠ IncidentState.active)) :
    ∀ inc ∈ applyOp db op t,
      (inc.ended_at ≠ none ↔ inc.status ≠ IncidentState.active) := by
  cases op with
  | detect newId cid cn loc w sev conf snap =>
    simp only [applyOp, processDetection]
    by_cases hany : db.any (incidentMatches cid w t)
    · rw [if_pos hany]
      exact forall_mem_updateFirst _ _ db h
        (fun x hx _ => by rw [applyDetection_ended_at, applyDetection_status]; exact h x hx)
    · rw [if_neg hany]
      intro inc hmem
      rcases List.mem_append.mp hmem with hmem | hmem
      · exact h inc hmem
      · have heq : inc = applyDetection conf snap t (newIncident newId cid cn loc w sev t) := by
          simpa using hmem
        subst heq
        rw [applyDetection_ended_at, applyDetection_status]
        simp [newIncident]
  | sweep =>
    simp only [applyOp, auto_close_stale_incidents]
    intro inc hmem
    obtain ⟨x, hx, rfl⟩ := List.mem_map.mp hmem
    by_cases hst : staleActive t x
    · simp [closeStale, hst]
    · simpa [closeStale, hst] using h x hx
  | close incId =>
    simp only [applyOp, close_incident]
    exact forall_mem_updateFirst _ _ db h (fun x _ _ => by simp)
  | review incId verdict rb notes =>
    simp only [applyOp]
    by_cases hany : db.any (fun inc => decide (inc.id = incId))
    · simp only [review_incident, hany, if_true]
      exact forall_mem_updateFirst _ _ db h
        (fun x _ _ => by
          constructor
          · intro _
            rw [applyReview_status]
            exact toIncidentState_ne_active verdict
          · intro _
            exact applyReview_ended_ne_none verdict rb notes t x)
    · simp only [review_incident, hany, if_false]
      exact h

/-- C5: after any sequence of engine operations (detection processing,
stale sweep, manual close, manual review) starting from a table where
`ended_at` is set exactly on the non-ACTIVE incidents, every incident
still has `ended_at` set if and only if its status is not ACTIVE. -/
theorem ended_at_iff_not_active_invariant (db : List Incident) (ops : List (EngineOp × ℚ))
    (h : endedIffNotActive db = true) : endedIffNotActive (runOps db ops) = true := by
  induction ops generalizing db with
  | nil => exact h
  | cons p rest ih =>
    obtain ⟨op, t⟩ := p
    exact ih _ ((endedIffNotActive_iff _).mpr
      (ended_invariant_step db op t ((endedIffNotActive_iff db).mp h)))

/-- Witness for C5: the invariant holds along a concrete run that creates
an incident, sweeps it closed and closes it again manually. -/
theorem ended_at_iff_not_active_invariant_witness :
    endedIffNotActive [] = true
    ∧ endedIffNotActive (runOps []
        [(EngineOp.detect 0 "cam-1" "n" "l" "Handgun" "crit" (1/2) "s", 0),
         (EngineOp.sweep, 400), (EngineOp.close 0, 500)]) = true :=
  ⟨rfl, ended_at_iff_not_active_invariant []
    [(EngineOp.detect 0 "cam-1" "n" "l" "Handgun" "crit" (1/2) "s", 0),
     (EngineOp.sweep, 400), (EngineOp.close 0, 500)] rfl⟩

theorem pairFreshCount_mono (db : List Incident) (cam w : String) {t t' : ℚ} (ht : t ≤ t') :
    pairFreshCount db cam w t' ≤ pairFreshCount db cam w t :=
  length_filter_imp_le _ _ db (fun x hx => incidentMatches_mono cam w ht x hx)

theorem pairFresh_step (db : List Incident) (op : EngineOp) (t' : ℚ) (cam w : String)
    (hinv : pairFreshCount db cam w t' ≤ 1) :
    pairFreshCount (applyOp db op t') cam w t' ≤ 1 := by
  cases op with
  | detect newId cid cn loc w2 sev conf snap =>
    simp only [applyOp, processDetection]
    by_cases hany : db.any (incidentMatches cid w2 t')
    · rw [if_pos hany]
      refine le_trans (length_filter_updateFirst_le _ _ _ db ?_) hinv
      intro x hp hq
      rw [incidentMatches, decide_eq_true_eq] at hp hq ⊢
      rw [applyDetection_camera_id, applyDetection_weapon, applyDetection_status] at hq
      exact ⟨hq.1, hq.2.1, hp.2.2.1, hp.2.2.2⟩
    · rw [if_neg hany]
      unfold pairFreshCount at hinv ⊢
      rw [List.filter_append, List.length_append]
      by_cases hqx : incidentMatches cam w t'
          (applyDetection conf snap t' (newIncident newId cid cn loc w2 sev t')) = true
      · have hc : cid = cam ∧ w2 = w := by
          rw [incidentMatches, decide_eq_true_eq] at hqx
          rw [applyDetection_camera_id, applyDetection_weapon] at hqx
          exact ⟨hqx.1, hqx.2.1⟩
        obtain ⟨rfl, rfl⟩ := hc
        have hnil : db.filter (incidentMatches cid w2 t') = [] := by
          rw [List.filter_eq_nil]
          intro a ha hcontra
          exact hany (List.any_eq_true.mpr ⟨a, ha, hcontra⟩)
        simp [hnil, hqx]
      · simp only [List.filter_cons, hqx, if_false, List.filter_nil, List.length_nil,
          Nat.add_zero]
        exact hinv
  | sweep =>
    simp only [applyOp, auto_close_stale_incidents]
    refine le_trans (length_filter_map_le _ _ db ?_) hinv
    intro x hq
    by_cases hst : staleActive t' x
    · exfalso
      rw [closeStale, if_pos hst, incidentMatches, decide_eq_true_eq] at hq
      simpa using hq.2.2.1
    · rw [closeStale, if_neg hst] at hq
      exact hq
  | close incId =>
    simp only [applyOp, close_incident]
    refine le_trans (length_filter_updateFirst_le _ _ _ db ?_) hinv
    intro x _ hq
    exfalso
    rw [incidentMatches, decide_eq_true_eq] at hq
    simpa using hq.2.2.1
  | review incId verdict rb notes =>
    simp only [applyOp]
    by_cases hany : db.any (fun inc => decide (inc.id = incId))
    · simp only [review_incident, hany, if_true]
      refine le_trans (length_filter_updateFirst_le _ _ _ db ?_) hinv
      intro x _ hq
      exfalso
      rw [incidentMatches, decide_eq_true_eq] at hq
      rw [applyReview_status] at hq
      exact toIncidentState_ne_active verdict hq.2.2.1
    · simp only [review_incident, hany, if_false]
      exact hinv

/-- C1 (amended): a detection reuses an existing incident exactly when one
matches on camera, weapon type, ACTIVE status and a `last_detection_at`
within the 5-minute window, and otherwise creates a fresh ACTIVE incident
seeded with the detection. Consequently at most one such *matchable*
ACTIVE incident (fresh within the window) exists per (camera, weapon
type) pair at any instant, and this is preserved by every engine
operation as time advances; a stale ACTIVE incident, however, may coexist
with a newly created one for the same pair until a sweep closes it, so
the unrestricted at-most-one-ACTIVE property does not hold. -/
theorem incident_matching_invariant (db : List Incident) (op : EngineOp) (t t' : ℚ)
    (cameraId weaponType : String)
    (hinv : pairFreshCount db cameraId weaponType t ≤ 1) (ht : t ≤ t') :
    pairFreshCount (applyOp db op t') cameraId weaponType t' ≤ 1
    ∧ (∀ (newId : Nat) (cn loc sev : String) (now : ℚ),
        ((∃ inc ∈ db, incidentMatches cameraId weaponType now inc = true) →
          (get_or_create_incident db newId cameraId cn loc weaponType sev now).2 = false ∧
          (get_or_create_incident db newId cameraId cn loc weaponType sev now).1 ∈ db ∧
          incidentMatches cameraId weaponType now
            (get_or_create_incident db newId cameraId cn loc weaponType sev now).1 = true)
        ∧ ((∀ inc ∈ db, incidentMatches cameraId weaponType now inc = false) →
          get_or_create_incident db newId cameraId cn loc weaponType sev now =
            (newIncident newId cameraId cn loc weaponType sev now, true))) := by
  constructor
  · exact pairFresh_step db op t' cameraId weaponType
      (le_trans (pairFreshCount_mono db cameraId weaponType ht) hinv)
  · intro newId cn loc sev now
    constructor
    · intro hex
      cases hfind : db.find? (incidentMatches cameraId weaponType now) with
      | none =>
        obtain ⟨inc, hmem, hp⟩ := hex
        have := List.find?_eq_none.mp hfind inc hmem
        simp [hp] at this
      | some inc =>
        refine ⟨by simp [get_or_create_incident, hfind], ?_, ?_⟩
        · simpa [get_or_create_incident, hfind] using List.mem_of_find?_eq_some hfind
        · simpa [get_or_create_incident, hfind] using List.find?_some hfind
    · intro hall
      have hfind : db.find? (incidentMatches cameraId weaponType now) = none :=
        List.find?_eq_none.mpr (fun x hx => by simp [hall x hx])
      simp [get_or_create_incident, hfind]

/-- Witness for C1 at a concrete table holding one fresh ACTIVE incident:
the invariant holds at time 0 and is preserved by a matching detection at
time 10. -/
theorem incident_matching_invariant_witness :
    pairFreshCount [newIncident 0 "cam-1" "n" "l" "Handgun" "crit" 0] "cam-1" "Handgun" 0 ≤ 1
    ∧ (0 : ℚ) ≤ 10
    ∧ pairFreshCount (applyOp [newIncident 0 "cam-1" "n" "l" "Handgun" "crit" 0]
        (EngineOp.detect 1 "cam-1" "n" "l" "Handgun" "crit" (1/2) "s") 10)
        "cam-1" "Handgun" 10 ≤ 1 := by
  have h0 : pairFreshCount [newIncident 0 "cam-1" "n" "l" "Handgun" "crit" 0]
      "cam-1" "Handgun" 0 ≤ 1 := by
    norm_num [pairFreshCount, incidentMatches, newIncident, INCIDENT_TIMEOUT, List.filter]
  exact ⟨h0, by norm_num,
    (incident_matching_invariant [newIncident 0 "cam-1" "n" "l" "Handgun" "crit" 0]
      (EngineOp.detect 1 "cam-1" "n" "l" "Handgun" "crit" (1/2) "s") 0 10
      "cam-1" "Handgun" h0 (by norm_num)).1⟩

/-- C1 counterexample: an ACTIVE incident whose `last_detection_at` has
gone stale (no sweep has run) is invisible to the matching query, so a
detection for the same camera and weapon type 360 seconds later creates a
second incident — leaving two ACTIVE incidents for the pair
("cam-1", "Handgun") at the same instant. -/
theorem active_invariant_counterexample :
    ((processDetection (processDetection [] 0 "cam-1" "n" "l" "Handgun" "crit" (1/2) "s0" 0)
        1 "cam-1" "n" "l" "Handgun" "crit" (1/2) "s1" 360).filter
      (fun inc => decide (inc.camera_id = "cam-1" ∧ inc.primary_weapon_type = "Handgun" ∧
        inc.status = IncidentState.active))).length = 2 := by
  norm_num [processDetection, incidentMatches, newIncident, applyDetection, updateFirst,
    INCIDENT_TIMEOUT, List.filter]
